import Mathlib

/-!
Shallow embedding of `classificator.py` (Elsinor1/Material_classificator).

The three LLM chains of the source (the information agent of
`get_material_information`, the classification chain of `classify_material`
and the correction chain of `correct_answer_from_list`) are external
collaborators; they are embedded as function-valued parameters.  Everything
else — the taxonomy loader, the lookup helpers, the answer corrector and the
`start_workflow` orchestrator — is translated from the source.

Printing to stdout is modelled by returning the printed report alongside the
value where a claim depends on it (`get_material_data`), and the number and
order of correction-oracle calls is modelled by returning, alongside the
corrector result, the list of answers submitted to the correction chain.
-/

set_option maxHeartbeats 1000000

/-- Kinds of Python exceptions relevant to the embedded code: `typeError`
models a `TypeError` (in particular the one raised when a call passes a
keyword argument that does not match any parameter), and `keyError` models
the `KeyError` raised by a dict lookup `d[k]` with an absent key.  The
spec calls the latter situation `NotFoundError`. -/
inductive PyError where
  | typeError (message : String)
  | keyError (key : String)
deriving DecidableEq, Repr

/-- Result of reading the correction chain response inside
`correct_answer_from_list` (lines 218-230): `ok s` means
`str(response.content)` produced the string `s`; `typeErr` means reading the
response raised a `TypeError`, which the source catches locally. -/
inductive OracleResp where
  | ok (s : String)
  | typeErr
deriving DecidableEq, Repr

/-- A worksheet row, as accessed by `get_material_data`: cell values by
0-indexed column.  `none` models an empty cell (`None` in openpyxl); a
non-empty cell holds its string value. -/
abbrev Row := Nat → Option String

/-- The nested dictionary `{category: {subcategory: [grades]}}` built by
`get_material_data`, embedded as an insertion-ordered association list
(Python dicts preserve insertion order). -/
abbrev Taxonomy := List (String × List (String × List String))

/-- Python truthiness test (`if not x`) for a value that is either a string
or `None`: `None` and the empty string are falsy. -/
def pyFalsy : Option String → Bool
  | none => true
  | some s => s == ""

/-- Line 46-47: `if grade not in d[category][subcategory]: ... .append(grade)`.
Appends the grade unless it is already present. -/
def insertGradeIntoSub (gs : List String) (g : String) : List String :=
  if g ∈ gs then gs else gs ++ [g]

/-- Lines 44-47: ensure `d[category][subcategory]` exists, then append the
grade if new.  New subcategory keys go to the end (dict insertion order). -/
def insertSub (subs : List (String × List String)) (s g : String) :
    List (String × List String) :=
  match subs with
  | [] => [(s, [g])]
  | (s', gs) :: rest =>
    if s' = s then (s', insertGradeIntoSub gs g) :: rest
    else (s', gs) :: insertSub rest s g

/-- Lines 42-47: ensure `d[category]` exists, then insert into it.  New
category keys go to the end (dict insertion order). -/
def insertCat (t : Taxonomy) (c s g : String) : Taxonomy :=
  match t with
  | [] => [(c, [(s, [g])])]
  | (c', subs) :: rest =>
    if c' = c then (c', insertSub subs s g) :: rest
    else (c', subs) :: insertCat rest c s g

/-- Lines 31-47, the body of the row loop of `get_material_data`: skip the
row if the grade cell (column 0) is `None`; read category from column 5,
subcategory from column 6, grade from column 0; skip the row if any of the
three is falsy; otherwise insert the triple. -/
def processRow (acc : Taxonomy) (row : Row) : Taxonomy :=
  if (row 0).isNone then acc
  else
    let category := row 5
    let subcategory := row 6
    let grade := row 0
    if pyFalsy category || pyFalsy subcategory || pyFalsy grade then acc
    else insertCat acc (category.getD "") (subcategory.getD "") (grade.getD "")

/-- The outcome of `load_workbook(material_list_file, read_only=True)`
(lines 19-26): the file may be missing (`FileNotFoundError`), unreadable
(any other exception, carrying its message), or load successfully into a
sheet whose rows are listed top to bottom (row 1 first). -/
inductive LoadSource where
  | fileNotFound (path : String)
  | loadFailure (path : String) (err : String)
  | workbook (rows : List Row)

/-- Lines 9-49, `get_material_data`: on a load error, print an error message
and return the empty dict; otherwise iterate the rows starting from row 2
(`min_row=2` skips the header row) and build the nested dict.  The returned
pair is (returned taxonomy, printed error report); on success nothing is
printed.  The source prints the file path inside quotes; the quotes are
elided here. -/
def get_material_data (src : LoadSource) : Taxonomy × Option String :=
  match src with
  | LoadSource.fileNotFound p => ([], some ("Error: File " ++ p ++ " not found."))
  | LoadSource.loadFailure _ e => ([], some ("Error: Failed to load workbook: " ++ e))
  | LoadSource.workbook rows => ((rows.drop 1).foldl processRow [], none)

/-- Lines 52-62, `get_categories`: the top-level keys. -/
def get_categories (material_data : Taxonomy) : List String :=
  material_data.map Prod.fst

/-- Association-list rendering of a Python dict lookup `d[k]`. -/
def alookup {α : Type} (l : List (String × α)) (k : String) : Option α :=
  match l with
  | [] => none
  | (k', v) :: rest => if k' = k then some v else alookup rest k

/-- Lines 65-76, `get_subcategories`: `material_data[category].keys()`.
A missing category key raises `KeyError` (the spec's `NotFoundError`),
embedded as the `Except` error case. -/
def get_subcategories (material_data : Taxonomy) (category : String) :
    Except PyError (List String) :=
  match alookup material_data category with
  | none => Except.error (PyError.keyError category)
  | some subs => Except.ok (subs.map Prod.fst)

/-- Lines 79-91, `get_grades`: `material_data[category][subcategory]`. -/
def get_grades (material_data : Taxonomy) (category subcategory : String) :
    Except PyError (List String) :=
  match alookup material_data category with
  | none => Except.error (PyError.keyError category)
  | some subs =>
    match alookup subs subcategory with
    | none => Except.error (PyError.keyError subcategory)
    | some gs => Except.ok gs

/-- Lines 94-137, `get_material_information`: runs the information agent on
the material name and returns its response.  The agent is the external
information oracle, passed in as `describe`. -/
def get_material_information (describe : String → String)
    (material_name : String) : String :=
  describe material_name

/-- Lines 140-180, `classify_material`: prompts the classification chain
with the material name, its description and the option list, and returns
`response.content`.  The chain is the external classification oracle,
passed in as `oracle`. -/
def classify_material (oracle : String → String → List String → String)
    (material_name material_information : String) (options : List String) : String :=
  oracle material_name material_information options

/-- Lines 183-230, `correct_answer_from_list`.  `oracle answer options`
models invoking the correction chain and reading `str(response.content)`.
The source's Python signature has defaults `counter=0, max_attempts=3`;
here both are explicit and call sites pass the defaults.

The result pair is (return value, list of answers submitted to the chain,
in submission order).  The translation keeps two behaviours of the source
exactly as written:
* line 227 calls `correct_answer_from_list(new_answer, options, counter)`
  without passing `max_attempts`, so the recursive call runs with the
  default budget `3` whatever the top-level budget was; and
* the value of that recursive call is not returned — the `else` branch
  falls off the end of the function, returning `None` — so only the trace
  of the recursive call survives, never its result. -/
def correct_answer_from_list (oracle : String → List String → OracleResp)
    (answer : String) (options : List String) (counter max_attempts : Nat) :
    Option String × List String :=
  if _hstop : counter ≥ max_attempts then
    (none, [])
  else
    match oracle answer options with
    | OracleResp.typeErr => (none, [answer])
    | OracleResp.ok new_answer =>
      if new_answer ∈ options then
        (some new_answer, [answer])
      else
        (none, answer :: (correct_answer_from_list oracle new_answer options (counter + 1) 3).2)
termination_by max max_attempts 3 - counter
decreasing_by
  have h1 : 3 ≤ max max_attempts 3 := Nat.le_max_right max_attempts 3
  have h2 : max_attempts ≤ max max_attempts 3 := Nat.le_max_left max_attempts 3
  have h3 : max 3 3 = 3 := rfl
  omega

/-- The external oracles consumed by the workflow: the information agent,
the classification chain, and the correction chain. -/
structure Oracles where
  describe : String → String
  classify : String → String → List String → String
  correct : String → List String → OracleResp

/-- The classification record returned by `start_workflow` (lines 284-288). -/
structure WorkflowResult where
  category : String
  subcategory : String
  grade : String
deriving DecidableEq, Repr

/-- The stage block repeated at lines 250-260, 264-270 and 276-282 of
`start_workflow` (the spec's `resolve_stage`): classify, keep the answer if
it is an exact member of the options, otherwise run the corrector (with its
default budget), and replace a falsy outcome (`None` or the empty string,
Python's `if not x`) by the sentinel `"Other"`. -/
def resolve_stage (o : Oracles) (material_name material_info : String)
    (options : List String) : String :=
  let ans := classify_material o.classify material_name material_info options
  let checked : Option String :=
    if ans ∈ options then some ans
    else (correct_answer_from_list o.correct ans options 0 3).1
  if pyFalsy checked then "Other" else checked.getD ""

/-- The parameter names of `classify_material` (line 140-142). -/
def classify_material_params : List String :=
  ["material_name", "material_information", "options"]

/-- The keyword names used at the stage-1 call site of `start_workflow`
(lines 250-254): the third keyword is `categories`, not `options`. -/
def stage1_call_keywords : List String :=
  ["material_name", "material_information", "categories"]

/-- Lines 244-288 of `start_workflow` under the assumption that the stage-1
`classify_material` call binds its third argument to the `options`
parameter — i.e. the body with the keyword slip at line 253 repaired.  The
stage-2 and stage-3 calls are translated exactly as written (they are
well-formed in the source).  Dict lookups that can raise propagate through
`Except`. -/
def start_workflow_body (o : Oracles) (material_name : String)
    (material_db : Taxonomy) : Except PyError WorkflowResult :=
  let material_info := get_material_information o.describe material_name
  let categories := get_categories material_db
  let mat_category := resolve_stage o material_name material_info categories
  match get_subcategories material_db mat_category with
  | Except.error e => Except.error e
  | Except.ok subcategories =>
    let mat_subcategory := resolve_stage o material_name material_info subcategories
    match get_grades material_db mat_category mat_subcategory with
    | Except.error e => Except.error e
    | Except.ok grades =>
      let mat_grade := resolve_stage o material_name material_info grades
      Except.ok
        { category := mat_category
          subcategory := mat_subcategory
          grade := mat_grade }

/-- Lines 233-288, `start_workflow`, faithful to the source: the stage-1
call `classify_material(material_name=..., material_information=...,
categories=categories)` at lines 250-254 uses the keyword `categories`,
which is not a parameter of `classify_material`, so Python raises
`TypeError` at that call and the body never completes.  The keyword check
is embedded explicitly; it evaluates to `false` on the source's keyword
list, selecting the error. -/
def start_workflow (o : Oracles) (material_name : String)
    (material_db : Taxonomy) : Except PyError WorkflowResult :=
  if stage1_call_keywords.all (fun k => classify_material_params.contains k) then
    start_workflow_body o material_name material_db
  else
    Except.error (PyError.typeError
      "classify_material() got an unexpected keyword argument: categories")

/-- The taxonomy of the spec's steel scenario:
`{"Metal": {"Ferrous": ["Steel-A36"]}}`. -/
def steelTaxonomy : Taxonomy := [("Metal", [("Ferrous", ["Steel-A36"])])]

/-- A classification oracle that always returns the first option — an exact
member of every non-empty option set — together with benign companions. -/
def exactOracles : Oracles where
  describe := fun _ => "a strong ferrous construction material"
  classify := fun _ _ options => options.headD ""
  correct := fun a _ => OracleResp.ok a

/-- Oracles that always answer with text outside every taxonomy option set,
so that exact-match validation and the corrector both fail. -/
def garbageOracles : Oracles where
  describe := fun _ => "unknown"
  classify := fun _ _ _ => "garbage"
  correct := fun _ _ => OracleResp.ok "still garbage"

/-- A correction chain that maps "start" to "mid" and "mid" to the valid
grade "Steel-A36": the first correction attempt is invalid, the second is a
byte-exact member. -/
def chainCorr : String → List String → OracleResp := fun a _ =>
  if a = "start" then OracleResp.ok "mid"
  else if a = "mid" then OracleResp.ok "Steel-A36"
  else OracleResp.ok "junk"

/-- A correction chain that always returns the same non-member answer. -/
def stubbornCorr : String → List String → OracleResp :=
  fun _ _ => OracleResp.ok "garbage"

/-- A correction chain whose response always raises `TypeError` when read. -/
def errCorr : String → List String → OracleResp := fun _ _ => OracleResp.typeErr

/-- A worksheet row with the given grade in column 0, category in column 5
and subcategory in column 6. -/
def mkRow (g c s : Option String) : Row :=
  fun i => if i = 0 then g else if i = 5 then c else if i = 6 then s else none

/-- The demo data row (grade "Steel-A36", category "Metal",
subcategory "Ferrous"). -/
def demoRow : Row := mkRow (some "Steel-A36") (some "Metal") (some "Ferrous")

/-- A row with every cell empty (used as a header row and as a row with
missing required values). -/
def blankRow : Row := fun _ => none

-- Unfolding lemmas for `correct_answer_from_list` (its recursion is
-- well-founded, so concrete runs are evaluated through these equations).

theorem correct_stop (o : String → List String → OracleResp) (a : String)
    (opts : List String) (c m : Nat) (h : m ≤ c) :
    correct_answer_from_list o a opts c m = (none, []) := by
  rw [correct_answer_from_list.eq_def]
  simp [ge_iff_le, h]

theorem correct_typeErr_step (o : String → List String → OracleResp) (a : String)
    (opts : List String) (c m : Nat) (h : c < m) (ho : o a opts = OracleResp.typeErr) :
    correct_answer_from_list o a opts c m = (none, [a]) := by
  rw [correct_answer_from_list.eq_def, ho]
  simp [Nat.not_le.mpr h]

theorem correct_hit (o : String → List String → OracleResp) (a : String)
    (opts : List String) (c m : Nat) (b : String) (h : c < m)
    (ho : o a opts = OracleResp.ok b) (hb : b ∈ opts) :
    correct_answer_from_list o a opts c m = (some b, [a]) := by
  rw [correct_answer_from_list.eq_def, ho]
  simp [Nat.not_le.mpr h, hb]

theorem correct_miss (o : String → List String → OracleResp) (a : String)
    (opts : List String) (c m : Nat) (b : String) (h : c < m)
    (ho : o a opts = OracleResp.ok b) (hb : b ∉ opts) :
    correct_answer_from_list o a opts c m =
      (none, a :: (correct_answer_from_list o b opts (c + 1) 3).2) := by
  rw [correct_answer_from_list.eq_def, ho]
  simp [Nat.not_le.mpr h, hb]

/-- Closed form of the corrector's first component: the returned value is
decided entirely by the first oracle call, because the else branch at line
227 discards the recursive result. -/
theorem correct_fst (o : String → List String → OracleResp) (a : String)
    (opts : List String) (c m : Nat) :
    (correct_answer_from_list o a opts c m).1 =
      if c < m then
        match o a opts with
        | OracleResp.typeErr => none
        | OracleResp.ok b => if b ∈ opts then some b else none
      else none := by
  by_cases h : c < m
  · cases ho : o a opts with
    | typeErr => rw [correct_typeErr_step o a opts c m h ho]; simp [h, ho]
    | ok b =>
      by_cases hb : b ∈ opts
      · rw [correct_hit o a opts c m b h ho hb]; simp [h, ho, hb]
      · rw [correct_miss o a opts c m b h ho hb]; simp [h, ho, hb]
  · rw [correct_stop o a opts c m (Nat.le_of_not_lt h)]
    simp [h]

/-- Whenever the corrector returns a non-null value, that value is a member
of the option list. -/
theorem correct_some_mem (o : String → List String → OracleResp) (a : String)
    (opts : List String) (c m : Nat) (s : String)
    (h : (correct_answer_from_list o a opts c m).1 = some s) : s ∈ opts := by
  rw [correct_fst] at h
  by_cases hcm : c < m
  · simp only [if_pos hcm] at h
    cases ho : o a opts with
    | typeErr => rw [ho] at h; simp at h
    | ok b =>
      rw [ho] at h
      by_cases hb : b ∈ opts
      · simp [hb] at h
        rw [← h]
        exact hb
      · simp [hb] at h
  · simp [hcm] at h

-- Helper lemmas about a single workflow stage.

theorem resolve_stage_mem (o : Oracles) (n i : String) (opts : List String)
    (hm : o.classify n i opts ∈ opts) (hne : o.classify n i opts ≠ "") :
    resolve_stage o n i opts = o.classify n i opts := by
  simp only [resolve_stage, classify_material]
  rw [if_pos hm]
  simp [pyFalsy, hne]

theorem resolve_stage_mem_empty (o : Oracles) (n i : String) (opts : List String)
    (hm : o.classify n i opts ∈ opts) (he : o.classify n i opts = "") :
    resolve_stage o n i opts = "Other" := by
  simp only [resolve_stage, classify_material]
  rw [if_pos hm]
  simp [pyFalsy, he]

theorem resolve_stage_corr_none (o : Oracles) (n i : String) (opts : List String)
    (hm : o.classify n i opts ∉ opts)
    (hc : (correct_answer_from_list o.correct (o.classify n i opts) opts 0 3).1 = none) :
    resolve_stage o n i opts = "Other" := by
  simp only [resolve_stage, classify_material]
  rw [if_neg hm, hc]
  simp [pyFalsy]

theorem resolve_stage_corr_some (o : Oracles) (n i : String) (opts : List String)
    (s : String) (hm : o.classify n i opts ∉ opts)
    (hc : (correct_answer_from_list o.correct (o.classify n i opts) opts 0 3).1 = some s)
    (hne : s ≠ "") :
    resolve_stage o n i opts = s := by
  simp only [resolve_stage, classify_material]
  rw [if_neg hm, hc]
  simp [pyFalsy, hne]

theorem resolve_stage_corr_some_empty (o : Oracles) (n i : String) (opts : List String)
    (s : String) (hm : o.classify n i opts ∉ opts)
    (hc : (correct_answer_from_list o.correct (o.classify n i opts) opts 0 3).1 = some s)
    (he : s = "") :
    resolve_stage o n i opts = "Other" := by
  simp only [resolve_stage, classify_material]
  rw [if_neg hm, hc]
  simp [pyFalsy, he]

/-- A stage always resolves to a member of its option set or to the
sentinel `"Other"` — no other value is possible. -/
theorem resolve_stage_closure (o : Oracles) (n i : String) (opts : List String) :
    resolve_stage o n i opts ∈ opts ∨ resolve_stage o n i opts = "Other" := by
  by_cases hm : o.classify n i opts ∈ opts
  · by_cases he : o.classify n i opts = ""
    · exact Or.inr (resolve_stage_mem_empty o n i opts hm he)
    · rw [resolve_stage_mem o n i opts hm he]
      exact Or.inl hm
  · cases hc : (correct_answer_from_list o.correct (o.classify n i opts) opts 0 3).1 with
    | none => exact Or.inr (resolve_stage_corr_none o n i opts hm hc)
    | some s =>
      by_cases he : s = ""
      · exact Or.inr (resolve_stage_corr_some_empty o n i opts s hm hc he)
      · rw [resolve_stage_corr_some o n i opts s hm hc he]
        exact Or.inl (correct_some_mem o.correct (o.classify n i opts) opts 0 3 s hc)

-- Idempotence of taxonomy insertion (deduplication of repeated triples).

theorem insertGrade_idem (gs : List String) (g : String) :
    insertGradeIntoSub (insertGradeIntoSub gs g) g = insertGradeIntoSub gs g := by
  by_cases h : g ∈ gs <;> simp [insertGradeIntoSub, h]

theorem insertSub_idem (subs : List (String × List String)) (s g : String) :
    insertSub (insertSub subs s g) s g = insertSub subs s g := by
  induction subs with
  | nil => simp [insertSub, insertGradeIntoSub]
  | cons hd tl ih =>
    obtain ⟨s', gs⟩ := hd
    by_cases h : s' = s
    · simp [insertSub, h, insertGrade_idem]
    · simp [insertSub, h, ih]

theorem insertCat_idem (t : Taxonomy) (c s g : String) :
    insertCat (insertCat t c s g) c s g = insertCat t c s g := by
  induction t with
  | nil => simp [insertCat, insertSub, insertGradeIntoSub]
  | cons hd tl ih =>
    obtain ⟨c', subs⟩ := hd
    by_cases h : c' = c
    · simp [insertCat, h, insertSub_idem]
    · simp [insertCat, h, ih]

/-- The row loop reads only columns 0, 5 and 6 of a row. -/
theorem processRow_congr (acc : Taxonomy) (row row' : Row) (h0 : row 0 = row' 0)
    (h5 : row 5 = row' 5) (h6 : row 6 = row' 6) :
    processRow acc row = processRow acc row' := by
  simp only [processRow, h0, h5, h6]

/-- A row whose grade, category or subcategory is missing (falsy)
contributes nothing. -/
theorem processRow_skip (acc : Taxonomy) (row : Row)
    (h : pyFalsy (row 0) = true ∨ pyFalsy (row 5) = true ∨ pyFalsy (row 6) = true) :
    processRow acc row = acc := by
  rcases h with h | h | h
  · cases h0 : row 0 with
    | none => simp [processRow, h0]
    | some v =>
      rw [h0] at h
      have hv : v = "" := by simpa [pyFalsy] using h
      subst hv
      simp [processRow, h0, pyFalsy]
  · simp [processRow, h]
  · simp [processRow, h]

/-- Processing the same row twice is the same as processing it once. -/
theorem processRow_idem (acc : Taxonomy) (row : Row) :
    processRow (processRow acc row) row = processRow acc row := by
  by_cases h0 : (row 0).isNone
  · simp [processRow, h0]
  · by_cases hb : (pyFalsy (row 5) || pyFalsy (row 6) || pyFalsy (row 0)) = true
    · simp [processRow, h0, hb]
    · simp [processRow, h0, hb, insertCat_idem]

-- The structural invariant of loader-built taxonomies.

/-- Well-formedness of a taxonomy: every category entry has a non-empty
subcategory list, and every subcategory entry has a non-empty,
duplicate-free grade list. -/
def taxWF (t : Taxonomy) : Prop :=
  ∀ p ∈ t, p.2 ≠ [] ∧ ∀ q ∈ p.2, q.2 ≠ [] ∧ q.2.Nodup

theorem taxWF_nil : taxWF [] := by
  intro p hp
  exact absurd hp (List.not_mem_nil p)

theorem insertGrade_ne_nil (gs : List String) (g : String) :
    insertGradeIntoSub gs g ≠ [] := by
  by_cases h : g ∈ gs
  · simp only [insertGradeIntoSub, if_pos h]
    exact List.ne_nil_of_mem h
  · simp [insertGradeIntoSub, h]

theorem insertGrade_nodup (gs : List String) (g : String) (h : gs.Nodup) :
    (insertGradeIntoSub gs g).Nodup := by
  by_cases hg : g ∈ gs
  · simpa [insertGradeIntoSub, hg] using h
  · simp only [insertGradeIntoSub, if_neg hg]
    rw [List.nodup_append]
    refine ⟨h, List.nodup_singleton g, ?_⟩
    intro a ha hb
    rw [List.mem_singleton] at hb
    subst hb
    exact hg ha

theorem insertSub_ne_nil (subs : List (String × List String)) (s g : String) :
    insertSub subs s g ≠ [] := by
  cases subs with
  | nil => simp [insertSub]
  | cons hd tl =>
    obtain ⟨s', gs⟩ := hd
    by_cases h : s' = s <;> simp [insertSub, h]

theorem insertSub_wf : ∀ (subs : List (String × List String)) (s g : String),
    (∀ q ∈ subs, q.2 ≠ [] ∧ q.2.Nodup) →
    ∀ q ∈ insertSub subs s g, q.2 ≠ [] ∧ q.2.Nodup := by
  intro subs s g
  induction subs with
  | nil =>
    intro _ q hq
    simp [insertSub] at hq
    subst hq
    exact ⟨by simp, by simp⟩
  | cons hd tl ih =>
    obtain ⟨s', gs⟩ := hd
    intro h q hq
    by_cases hs : s' = s
    · simp only [insertSub, if_pos hs, List.mem_cons] at hq
      rcases hq with hq | hq
      · subst hq
        exact ⟨insertGrade_ne_nil gs g,
          insertGrade_nodup gs g (h (s', gs) (List.mem_cons_self _ _)).2⟩
      · exact h q (List.mem_cons_of_mem _ hq)
    · simp only [insertSub, if_neg hs, List.mem_cons] at hq
      rcases hq with hq | hq
      · subst hq
        exact h (s', gs) (List.mem_cons_self _ _)
      · exact ih (fun q' hq' => h q' (List.mem_cons_of_mem _ hq')) q hq

theorem insertCat_wf : ∀ (t : Taxonomy) (c s g : String),
    taxWF t → taxWF (insertCat t c s g) := by
  intro t c s g
  induction t with
  | nil =>
    intro _ p hp
    simp [insertCat] at hp
    subst hp
    refine ⟨by simp, ?_⟩
    intro q hq
    simp at hq
    subst hq
    exact ⟨by simp, by simp⟩
  | cons hd tl ih =>
    obtain ⟨c', subs⟩ := hd
    intro h p hp
    by_cases hc : c' = c
    · simp only [insertCat, if_pos hc, List.mem_cons] at hp
      rcases hp with hp | hp
      · subst hp
        exact ⟨insertSub_ne_nil subs s g,
          insertSub_wf subs s g (h (c', subs) (List.mem_cons_self _ _)).2⟩
      · exact h p (List.mem_cons_of_mem _ hp)
    · simp only [insertCat, if_neg hc, List.mem_cons] at hp
      rcases hp with hp | hp
      · subst hp
        exact h (c', subs) (List.mem_cons_self _ _)
      · exact ih (fun p' hp' => h p' (List.mem_cons_of_mem _ hp')) p hp

theorem processRow_wf (acc : Taxonomy) (row : Row) (h : taxWF acc) :
    taxWF (processRow acc row) := by
  by_cases h0 : (row 0).isNone
  · simpa [processRow, h0] using h
  · by_cases hb : (pyFalsy (row 5) || pyFalsy (row 6) || pyFalsy (row 0)) = true
    · simpa [processRow, h0, hb] using h
    · simpa [processRow, h0, hb] using
        insertCat_wf acc ((row 5).getD "") ((row 6).getD "") ((row 0).getD "") h

theorem foldl_processRow_wf : ∀ (rows : List Row) (acc : Taxonomy),
    taxWF acc → taxWF (List.foldl processRow acc rows) := by
  intro rows
  induction rows with
  | nil => intro acc h; simpa using h
  | cons r rs ih =>
    intro acc h
    rw [List.foldl_cons]
    exact ih _ (processRow_wf acc r h)

/-- Every taxonomy built by the loader is well-formed. -/
theorem build_wf (rows : List Row) :
    taxWF (get_material_data (LoadSource.workbook rows)).1 := by
  simp only [get_material_data]
  exact foldl_processRow_wf _ [] taxWF_nil

-- Association lookup facts.

theorem alookup_some_mem : ∀ {α : Type} (l : List (String × α)) (k : String) (v : α),
    alookup l k = some v → (k, v) ∈ l := by
  intro α l k v
  induction l with
  | nil => intro h; simp [alookup] at h
  | cons hd tl ih =>
    obtain ⟨k', v'⟩ := hd
    intro h
    by_cases hk : k' = k
    · simp only [alookup, if_pos hk, Option.some.injEq] at h
      subst hk
      subst h
      exact List.mem_cons_self _ _
    · simp only [alookup, if_neg hk] at h
      exact List.mem_cons_of_mem _ (ih h)

theorem mem_fst_alookup : ∀ {α : Type} (l : List (String × α)) (k : String),
    k ∈ l.map Prod.fst → ∃ v, alookup l k = some v := by
  intro α l k
  induction l with
  | nil => intro h; simp at h
  | cons hd tl ih =>
    obtain ⟨k', v'⟩ := hd
    intro h
    by_cases hk : k' = k
    · exact ⟨v', by simp [alookup, hk]⟩
    · rcases (by simpa using h : k = k' ∨ ∃ x, (k, x) ∈ tl) with h' | ⟨x, hx⟩
      · exact absurd h'.symm hk
      · obtain ⟨v, hv⟩ := ih (List.mem_map.mpr ⟨(k, x), hx, rfl⟩)
        exact ⟨v, by simp [alookup, hk, hv]⟩

-- Claim theorems.

/-- Claim C1.  For the taxonomy `{"Metal": {"Ferrous": ["Steel-A36"]}}` and a
classification oracle that always returns an exact member of the given
options, the claim says `start_workflow("steel", taxonomy)` completes all
three stages and returns the record (Metal, Ferrous, Steel-A36).  The code
does not: the stage-1 call passes the keyword `categories=` to
`classify_material`, whose parameter is named `options`, so `start_workflow`
raises `TypeError` at stage 1.  With that one keyword repaired
(`start_workflow_body`) the workflow does return exactly the claimed
record, confirming the slip. -/
theorem start_workflow_steel_exact_oracle :
    start_workflow exactOracles "steel" steelTaxonomy =
      Except.error (PyError.typeError
        "classify_material() got an unexpected keyword argument: categories") ∧
    start_workflow_body exactOracles "steel" steelTaxonomy =
      Except.ok { category := "Metal", subcategory := "Ferrous", grade := "Steel-A36" } :=
  ⟨rfl, rfl⟩

/-- Claim C2 (amended).  Provided the sentinel `"Other"` and the empty
string are not members of the option set, a stage resolves to a member of
`options` exactly when the oracle's first answer is an exact member or the
corrector returns a non-null value; when neither holds the stage resolves
to `"Other"`; and (unconditionally on those provisos for the last
conjunct) no value outside `options ∪ {"Other"}` is ever produced. -/
theorem resolve_stage_membership_iff (o : Oracles) (n i : String)
    (opts : List String) (h1 : "Other" ∉ opts) (h2 : "" ∉ opts) :
    (resolve_stage o n i opts ∈ opts ↔
      (o.classify n i opts ∈ opts ∨
        (correct_answer_from_list o.correct (o.classify n i opts) opts 0 3).1 ≠ none)) ∧
    ((o.classify n i opts ∉ opts ∧
        (correct_answer_from_list o.correct (o.classify n i opts) opts 0 3).1 = none) →
      resolve_stage o n i opts = "Other") ∧
    (resolve_stage o n i opts ∈ opts ∨ resolve_stage o n i opts = "Other") := by
  refine ⟨⟨?_, ?_⟩, ?_, resolve_stage_closure o n i opts⟩
  · intro hv
    by_cases hm : o.classify n i opts ∈ opts
    · exact Or.inl hm
    · cases hc : (correct_answer_from_list o.correct (o.classify n i opts) opts 0 3).1 with
      | none =>
        rw [resolve_stage_corr_none o n i opts hm hc] at hv
        exact absurd hv h1
      | some s => exact Or.inr (by simp [hc])
  · intro hrhs
    by_cases hm : o.classify n i opts ∈ opts
    · have hne : o.classify n i opts ≠ "" := fun he => h2 (he ▸ hm)
      rw [resolve_stage_mem o n i opts hm hne]
      exact hm
    · rcases hrhs with hm' | hcne
      · exact absurd hm' hm
      · cases hc : (correct_answer_from_list o.correct (o.classify n i opts) opts 0 3).1 with
        | none => exact absurd hc hcne
        | some s =>
          have hs : s ∈ opts := correct_some_mem o.correct (o.classify n i opts) opts 0 3 s hc
          have hne : s ≠ "" := fun he => h2 (he ▸ hs)
          rw [resolve_stage_corr_some o n i opts s hm hc hne]
          exact hs
  · intro ⟨hm, hc⟩
    exact resolve_stage_corr_none o n i opts hm hc

/-- Witness for claim C2: at the option set `["Metal"]` (which contains
neither `"Other"` nor the empty string) with the exact-match oracle, the
theorem applies and in particular yields the closure disjunction. -/
theorem resolve_stage_membership_iff_witness :
    (("Other" ∉ (["Metal"] : List String)) ∧ ("" ∉ (["Metal"] : List String))) ∧
    (resolve_stage exactOracles "steel" "info" ["Metal"] ∈ (["Metal"] : List String) ∨
      resolve_stage exactOracles "steel" "info" ["Metal"] = "Other") :=
  ⟨⟨by decide, by decide⟩,
    (resolve_stage_membership_iff exactOracles "steel" "info" ["Metal"]
      (by decide) (by decide)).2.2⟩

/-- Counterexample for claim C2 as frozen: with option set `["Other"]`, an
oracle answering "garbage" and a corrector that never produces a member,
the stage resolves to `"Other"`, which IS a member of the options even
though the first answer was not exact and the corrector returned null — so
the "exactly when" of the claim is false at this input. -/
theorem resolve_stage_membership_counterexample :
    ¬ ((resolve_stage garbageOracles "steel" "unknown" ["Other"] ∈ (["Other"] : List String)) ↔
        (garbageOracles.classify "steel" "unknown" ["Other"] ∈ (["Other"] : List String) ∨
          (correct_answer_from_list garbageOracles.correct
            (garbageOracles.classify "steel" "unknown" ["Other"]) ["Other"] 0 3).1 ≠ none)) := by
  intro hiff
  have hc : (correct_answer_from_list garbageOracles.correct
      (garbageOracles.classify "steel" "unknown" ["Other"]) ["Other"] 0 3).1 = none := by
    rw [correct_fst]
    decide
  have hv : resolve_stage garbageOracles "steel" "unknown" ["Other"] = "Other" :=
    resolve_stage_corr_none garbageOracles "steel" "unknown" ["Other"] (by decide) hc
  rcases hiff.mp (by rw [hv]; exact List.mem_singleton_self "Other") with hm | hcne
  · exact absurd hm (by decide)
  · exact hcne hc

/-- Claim C3.  The corrector does chain re-normalizations — the trace below
shows the second oracle submission is the oracle's own first output "mid",
not the original answer "start" — but the claim's second half is false in
the code: although the second attempt's answer "Steel-A36" is a byte-exact
member of the options, the top-level call returns `none`, because line 227
discards the result of the recursive call (a missing `return`).  The
docstring ("Returns: str: with corrected answer") documents the intended
behaviour, so this is a code bug. -/
theorem correct_answer_discards_recursive_success :
    correct_answer_from_list chainCorr "start" ["Steel-A36"] 0 3 = (none, ["start", "mid"]) ∧
    chainCorr "mid" ["Steel-A36"] = OracleResp.ok "Steel-A36" ∧
    "Steel-A36" ∈ (["Steel-A36"] : List String) := by
  have h1 : correct_answer_from_list chainCorr "mid" ["Steel-A36"] (0 + 1) 3 =
      (some "Steel-A36", ["mid"]) :=
    correct_hit chainCorr "mid" ["Steel-A36"] (0 + 1) 3 "Steel-A36"
      (by decide) (by decide) (by decide)
  have h0 := correct_miss chainCorr "start" ["Steel-A36"] 0 3 "mid"
    (by decide) (by decide) (by decide)
  rw [h1] at h0
  exact ⟨by rw [h0], by decide, by decide⟩

/-- Claim C4.  The claim says a top-level invocation makes at most
`max_attempts` oracle calls; the code violates this for budgets below the
default, because line 227 omits `max_attempts` in the recursive call so
the budget resets to 3.  Here with `max_attempts = 1` and an oracle that
never returns a member, the trace records three oracle submissions. -/
theorem correct_answer_exceeds_budget_one :
    correct_answer_from_list stubbornCorr "x" ["Metal"] 0 1 =
      (none, ["x", "garbage", "garbage"]) ∧
    (["x", "garbage", "garbage"] : List String).length = 3 ∧ 1 < 3 := by
  have h0 := correct_miss stubbornCorr "x" ["Metal"] 0 1 "garbage"
    (by decide) (by decide) (by decide)
  have h1 := correct_miss stubbornCorr "garbage" ["Metal"] (0 + 1) 3 "garbage"
    (by decide) (by decide) (by decide)
  have h2 := correct_miss stubbornCorr "garbage" ["Metal"] (0 + 1 + 1) 3 "garbage"
    (by decide) (by decide) (by decide)
  have h3 := correct_stop stubbornCorr "garbage" ["Metal"] (0 + 1 + 1 + 1) 3 (by decide)
  rw [h3] at h2
  rw [h2] at h1
  rw [h1] at h0
  exact ⟨by rw [h0], by decide, by decide⟩

/-- Claim C5.  With an always-garbage oracle and a failing corrector on a
taxonomy without an "Other" category, the claim says the workflow yields
(Other, Other, Other) or raises `NotFoundError` at stage 2.  The code does
neither: it raises `TypeError` at stage 1 (the `categories=` keyword slip
of lines 250-254).  With that slip repaired (`start_workflow_body`), stage
1 falls back to "Other" and stage 2's `get_subcategories` raises
`KeyError "Other"` — the claim's `NotFoundError` branch, reported as a
distinguishable error rather than swallowed. -/
theorem start_workflow_garbage_oracle :
    start_workflow garbageOracles "steel" steelTaxonomy =
      Except.error (PyError.typeError
        "classify_material() got an unexpected keyword argument: categories") ∧
    start_workflow_body garbageOracles "steel" steelTaxonomy =
      Except.error (PyError.keyError "Other") := by
  constructor
  · rfl
  · have hc : (correct_answer_from_list garbageOracles.correct
        (garbageOracles.classify "steel" (get_material_information garbageOracles.describe "steel")
          (get_categories steelTaxonomy))
        (get_categories steelTaxonomy) 0 3).1 = none := by
      rw [correct_fst]
      decide
    have hcat : resolve_stage garbageOracles "steel"
        (get_material_information garbageOracles.describe "steel")
        (get_categories steelTaxonomy) = "Other" :=
      resolve_stage_corr_none garbageOracles "steel"
        (get_material_information garbageOracles.describe "steel")
        (get_categories steelTaxonomy) (by decide) hc
    simp only [start_workflow_body]
    rw [hcat]
    rfl

/-- Claim C6.  A `TypeError` surfaced while reading the correction chain's
response is caught locally and turned into an immediate null return: one
oracle call is made, no further attempts follow, and (the corrector being
embedded as a total function into `Option`) nothing propagates to the
caller. -/
theorem correct_answer_typeError_immediate_none (o : String → List String → OracleResp)
    (a : String) (opts : List String) (c m : Nat) (hc : c < m)
    (he : o a opts = OracleResp.typeErr) :
    correct_answer_from_list o a opts c m = (none, [a]) :=
  correct_typeErr_step o a opts c m hc he

/-- Witness for claim C6 at a concrete input: a chain whose response always
raises `TypeError` on reading. -/
theorem correct_answer_typeError_immediate_none_witness :
    (0 < 3 ∧ errCorr "raw" ["Metal"] = OracleResp.typeErr) ∧
    correct_answer_from_list errCorr "raw" ["Metal"] 0 3 = (none, ["raw"]) :=
  ⟨⟨by decide, by decide⟩,
    correct_answer_typeError_immediate_none errCorr "raw" ["Metal"] 0 3
      (by decide) (by decide)⟩

/-- Claim C7.  When the taxonomy source file is nonexistent or unreadable,
the loader does not raise: it reports the error (the second component of
the pair models what is printed) and returns the empty taxonomy, for every
path and every underlying load failure. -/
theorem get_material_data_load_error :
    (∀ p, get_material_data (LoadSource.fileNotFound p) =
      ([], some ("Error: File " ++ p ++ " not found."))) ∧
    (∀ p e, get_material_data (LoadSource.loadFailure p e) =
      ([], some ("Error: Failed to load workbook: " ++ e))) :=
  ⟨fun _ => rfl, fun _ _ => rfl⟩

/-- Claim C8.  The loader: skips the header row (row 1); skips, without
terminating the scan, every row whose grade (column 0), category (column
5) or subcategory (column 6) is missing; reads only those three columns;
maps two rows with an identical (category, subcategory, grade) triple to a
single insertion; and never stores a duplicate grade within a
subcategory. -/
theorem get_material_data_row_processing :
    (∀ (hdr : Row) (rest : List Row),
      get_material_data (LoadSource.workbook (hdr :: rest)) =
        (List.foldl processRow [] rest, none)) ∧
    (∀ (acc : Taxonomy) (row : Row) (rows : List Row),
      (pyFalsy (row 0) = true ∨ pyFalsy (row 5) = true ∨ pyFalsy (row 6) = true) →
      List.foldl processRow acc (row :: rows) = List.foldl processRow acc rows) ∧
    (∀ (acc : Taxonomy) (row row' : Row),
      row 0 = row' 0 → row 5 = row' 5 → row 6 = row' 6 →
      processRow acc row = processRow acc row') ∧
    (∀ (acc : Taxonomy) (row row' : Row),
      row 0 = row' 0 → row 5 = row' 5 → row 6 = row' 6 →
      processRow (processRow acc row) row' = processRow acc row) ∧
    (∀ (rows : List Row) (p : String × List (String × List String)),
      p ∈ (get_material_data (LoadSource.workbook rows)).1 →
      ∀ q ∈ p.2, q.2.Nodup) := by
  refine ⟨fun hdr rest => rfl, ?_, ?_, ?_, ?_⟩
  · intro acc row rows h
    rw [List.foldl_cons, processRow_skip acc row h]
  · intro acc row row' h0 h5 h6
    exact processRow_congr acc row row' h0 h5 h6
  · intro acc row row' h0 h5 h6
    rw [processRow_congr (processRow acc row) row' row h0.symm h5.symm h6.symm,
      processRow_idem]
  · intro rows p hp q hq
    exact ((build_wf rows p hp).2 q hq).2

/-- Witness for claim C8 at concrete rows: a blank row is skipped inside a
scan, and re-processing the demo row is a no-op (deduplication). -/
theorem get_material_data_row_processing_witness :
    (pyFalsy (blankRow 0) = true ∨ pyFalsy (blankRow 5) = true ∨ pyFalsy (blankRow 6) = true) ∧
    List.foldl processRow [] [blankRow] = List.foldl processRow [] ([] : List Row) ∧
    processRow (processRow [] demoRow) demoRow = processRow [] demoRow :=
  ⟨Or.inl rfl,
    get_material_data_row_processing.2.1 [] blankRow [] (Or.inl rfl),
    get_material_data_row_processing.2.2.2.1 [] demoRow demoRow rfl rfl rfl⟩

/-- Claim C9.  In every taxonomy built by the loader, a present category
key yields a non-empty subcategory list and a present (category,
subcategory) pair yields a non-empty grade list; `get_categories` members
always have a successful, non-empty `get_subcategories`, and every listed
subcategory has a successful, non-empty `get_grades`. -/
theorem taxonomy_nonempty_invariant (rows : List Row) (c s : String) :
    (∀ subs, get_subcategories (get_material_data (LoadSource.workbook rows)).1 c =
        Except.ok subs →
      subs ≠ [] ∧ (s ∈ subs →
        ∃ gs, get_grades (get_material_data (LoadSource.workbook rows)).1 c s =
            Except.ok gs ∧ gs ≠ [])) ∧
    (c ∈ get_categories (get_material_data (LoadSource.workbook rows)).1 →
      ∃ subs, get_subcategories (get_material_data (LoadSource.workbook rows)).1 c =
        Except.ok subs) ∧
    (∀ gs, get_grades (get_material_data (LoadSource.workbook rows)).1 c s =
        Except.ok gs → gs ≠ []) := by
  have hwf := build_wf rows
  refine ⟨?_, ?_, ?_⟩
  · intro subs hsub
    unfold get_subcategories at hsub
    cases halo : alookup (get_material_data (LoadSource.workbook rows)).1 c with
    | none => rw [halo] at hsub; simp at hsub
    | some subsl =>
      rw [halo] at hsub
      have hsubs : subs = subsl.map Prod.fst := by
        cases hsub
        rfl
      have hw := hwf (c, subsl) (alookup_some_mem _ c subsl halo)
      constructor
      · rw [hsubs]
        simpa using hw.1
      · intro hs
        rw [hsubs] at hs
        obtain ⟨gs, hgs⟩ := mem_fst_alookup subsl s hs
        refine ⟨gs, ?_, (hw.2 (s, gs) (alookup_some_mem _ s gs hgs)).1⟩
        simp [get_grades, halo, hgs]
  · intro hc
    unfold get_categories at hc
    obtain ⟨subsl, halo⟩ := mem_fst_alookup _ c hc
    exact ⟨subsl.map Prod.fst, by unfold get_subcategories; rw [halo]⟩
  · intro gs hg
    unfold get_grades at hg
    cases halo : alookup (get_material_data (LoadSource.workbook rows)).1 c with
    | none => rw [halo] at hg; simp at hg
    | some subsl =>
      rw [halo] at hg
      cases hgl : alookup subsl s with
      | none => simp [hgl] at hg
      | some gl =>
        simp only [hgl] at hg
        have hgs : gs = gl := by
          cases hg
          rfl
        subst hgs
        exact ((hwf (c, subsl) (alookup_some_mem _ c subsl halo)).2 (s, gs)
          (alookup_some_mem _ s gs hgl)).1

/-- Witness for claim C9 at a concrete workbook: a header row followed by
the demo row builds `{"Metal": {"Ferrous": ["Steel-A36"]}}`, and the
subcategory list for "Metal" is non-empty. -/
theorem taxonomy_nonempty_invariant_witness :
    get_subcategories (get_material_data (LoadSource.workbook [blankRow, demoRow])).1 "Metal" =
      Except.ok ["Ferrous"] ∧
    (["Ferrous"] : List String) ≠ [] :=
  ⟨rfl,
    ((taxonomy_nonempty_invariant [blankRow, demoRow] "Metal" "Ferrous").1
      ["Ferrous"] rfl).1⟩

/-- Claim C10.  A call of `correct_answer_from_list` whose counter is
already at or above `max_attempts` returns `None` immediately: no oracle
call is made (empty submission trace) and no exception is raised (the
embedding is a total function). -/
theorem correct_answer_budget_exhausted_entry (o : String → List String → OracleResp)
    (a : String) (opts : List String) (c m : Nat) (h : m ≤ c) :
    correct_answer_from_list o a opts c m = (none, []) :=
  correct_stop o a opts c m h

/-- Witness for claim C10 at `max_attempts = 0` with the default counter 0. -/
theorem correct_answer_budget_exhausted_entry_witness :
    (0 ≤ 0) ∧ correct_answer_from_list errCorr "x" ["Metal"] 0 0 = (none, []) :=
  ⟨Nat.le_refl 0,
    correct_answer_budget_exhausted_entry errCorr "x" ["Metal"] 0 0 (Nat.le_refl 0)⟩
